import Mathlib

/-!
Shallow embedding of the llm-dashboard backend core
(`backend/services/data_processor.py` and
`backend/services/visualization_service.py`), together with proofs that
settle the spec claims about them.

Modelling conventions:
* a pandas `DataFrame` is an ordered list of named columns of cells;
* Python floats are modelled exactly by `ℚ` (the code only ever does
  field arithmetic on data values, so no rounding model is needed);
* datetimes are an abstract integer date code;
* `NaN`/`None`/`NaT` are the cell `Cell.null`;
* fallible Python operations (e.g. `df[col]` on a missing column, which
  raises `KeyError`) return `Option`, or produce an error log entry where
  the source catches the exception;
* the mutated `processing_log` attribute is modelled as a returned list of
  structured `LogEntry` values, one constructor per f-string of the source.
-/

/-- A scalar cell of a dataset column. -/
inductive Cell where
  | null
  | num (q : ℚ)
  | str (s : String)
  | time (t : ℤ)
deriving DecidableEq, Repr

/-- Declared dtype of a pandas column.  `numeric` covers `int64`/`float64`
(the code only ever asks `pd.api.types.is_numeric_dtype`), `object` is the
string/mixed dtype, `datetime` is `datetime64[ns]`. -/
inductive Dtype where
  | numeric
  | object
  | datetime
deriving DecidableEq, Repr

/-- A named column with a declared dtype. -/
structure Col where
  name : String
  dtype : Dtype
  values : List Cell
deriving DecidableEq, Repr

/-- A DataFrame: an ordered sequence of named columns (uniform length in
well-formed frames). -/
structure DataFrame where
  cols : List Col
deriving DecidableEq, Repr

namespace Cell

def isNull : Cell → Bool
  | Cell.null => true
  | _ => false

/-- A total order on cells, modelling the sorted order pandas produces for
group keys and `Series.mode()` (pandas raises on genuinely mixed types;
well-typed columns only ever compare within one constructor). -/
def le : Cell → Cell → Bool
  | Cell.null, _ => true
  | _, Cell.null => false
  | Cell.num a, Cell.num b => decide (a ≤ b)
  | Cell.num _, _ => true
  | _, Cell.num _ => false
  | Cell.str a, Cell.str b => decide (a ≤ b)
  | Cell.str _, _ => true
  | _, Cell.str _ => false
  | Cell.time a, Cell.time b => decide (a ≤ b)

end Cell

namespace DataFrame

/-- Column lookup, `df[name]` as an `Option` (Python raises `KeyError`). -/
def getCol (df : DataFrame) (name : String) : Option Col :=
  df.cols.find? (fun c => c.name == name)

/-- `len(df)`: the number of rows (length of the first column, 0 for a
frame with no columns). -/
def nrows (df : DataFrame) : Nat :=
  match df.cols with
  | [] => 0
  | c :: _ => c.values.length

/-- Number of columns. -/
def ncols (df : DataFrame) : Nat := df.cols.length

/-- `name in df.columns`. -/
def hasCol (df : DataFrame) (name : String) : Bool :=
  df.cols.any (fun c => c.name == name)

/-- `df[name] = f(df[name])`-style in-place column replacement. -/
def updateCol (df : DataFrame) (name : String) (f : Col → Col) : DataFrame :=
  ⟨df.cols.map (fun c => if c.name == name then f c else c)⟩

/-- `df.drop(columns=[name])`. -/
def dropCol (df : DataFrame) (name : String) : DataFrame :=
  ⟨df.cols.filter (fun c => c.name != name)⟩

end DataFrame

/-- Boolean-mask row selection on one column's values. -/
def applyMask : List Bool → List Cell → List Cell
  | b :: bs, v :: vs => if b then v :: applyMask bs vs else applyMask bs vs
  | _, _ => []

/-- `df = df[mask]` where the mask is computed from column `name` by
`keep`; on a missing column the callers never reach this (they model the
`KeyError` beforehand). -/
def DataFrame.filterByCol (df : DataFrame) (name : String) (keep : Cell → Bool) : DataFrame :=
  match df.getCol name with
  | none => df
  | some c =>
    let mask := c.values.map keep
    ⟨df.cols.map (fun cc => { cc with values := applyMask mask cc.values })⟩

/-- `series.nunique()`: number of distinct non-null values. -/
def nunique (values : List Cell) : Nat :=
  ((values.filter (fun c => !c.isNull)).dedup).length

/-- `series.isnull().sum()`. -/
def nullCount (values : List Cell) : Nat :=
  (values.filter (fun c => c.isNull)).length

/-- Non-null numeric values of a column (pandas numeric reductions and
statistics skip NaN). -/
def numericValues (values : List Cell) : List ℚ :=
  values.filterMap (fun c => match c with | Cell.num q => some q | _ => none)

/-- Ordered insertion, the building block of the sort model. -/
def insertRat (x : ℚ) : List ℚ → List ℚ
  | [] => [x]
  | y :: ys => if x ≤ y then x :: y :: ys else y :: insertRat x ys

/-- Ascending sort of rationals (model of the sort pandas performs when
computing quantiles). -/
def sortRat (xs : List ℚ) : List ℚ := xs.foldr insertRat []

/-- `Series.quantile(q)` with pandas' default linear interpolation, over
the non-null values; `none` on an empty series (pandas returns NaN).  At
position `q*(n-1) = i + frac` the result interpolates between the sorted
values at `i` and `i+1`. -/
def quantile (xs : List ℚ) (q : ℚ) : Option ℚ :=
  let s := sortRat xs
  match s.length with
  | 0 => none
  | Nat.succ m =>
    let pos : ℚ := q * (m : ℚ)
    let i : ℕ := (⌊pos⌋).toNat
    let frac : ℚ := pos - (i : ℚ)
    let lo := s.getD i 0
    let hi := s.getD (min (i+1) m) 0
    some (lo + frac * (hi - lo))

/-- `Series.mean()` over non-null values; `none` when empty (NaN). -/
def meanQ (xs : List ℚ) : Option ℚ :=
  if xs.isEmpty then none else some (xs.sum / (xs.length : ℚ))

/-- Sample variance (`ddof=1`, matching `Series.std()` squared); `none`
with fewer than two values (pandas std is NaN there). -/
def sampleVarQ (xs : List ℚ) : Option ℚ :=
  match meanQ xs with
  | none => none
  | some m =>
    if xs.length < 2 then none
    else some (((xs.map (fun x => (x - m)^2)).sum) / ((xs.length - 1 : ℕ) : ℚ))

/-- Multiplicity of a value in a list of cells. -/
def countEq (v : Cell) (vs : List Cell) : Nat := (vs.filter (fun w => w == v)).length

/-- `Series.mode()[0]`: the smallest of the most frequent non-null values
(pandas returns the modes sorted ascending); `none` when there is no
non-null value, in which case `[0]` raises `KeyError` in the source. -/
def colMode (values : List Cell) : Option Cell :=
  let vs := values.filter (fun c => !c.isNull)
  let cands := vs.dedup
  let maxCount := (cands.map (fun v => countEq v vs)).foldr max 0
  (cands.filter (fun v => countEq v vs == maxCount)).foldr
    (fun v acc => match acc with
      | none => some v
      | some w => if Cell.le v w then some v else some w)
    none

/-- `fillna(method='ffill')`: propagate the last non-null value downward
(leading nulls stay null). -/
def ffill (last : Cell) : List Cell → List Cell
  | [] => []
  | v :: vs => if v.isNull then last :: ffill last vs else v :: ffill v vs

/-- `fillna(v)` on a column's values. -/
def fillValues (v : Cell) (values : List Cell) : List Cell :=
  values.map (fun c => if c.isNull then v else c)

/-- Model of `str(x)` as applied by `astype(str)` (NaN prints as `"nan"`;
the numeric/temporal digit formatting is representative, no claim inspects
it). -/
def cellToString : Cell → String
  | Cell.null => "nan"
  | Cell.num q => toString q
  | Cell.str s => s
  | Cell.time t => toString t

/-- Model of `pd.to_datetime(·, errors='coerce')` on one cell.  Temporal
cells carry an abstract integer date code; strings of the form
`YYYY-MM-DD` parse to `y*10000+m*100+d`, anything unparseable becomes
null; numeric input (epoch interpretation in pandas) goes through the
floor. -/
def toDatetimeCell : Cell → Cell
  | Cell.null => Cell.null
  | Cell.time t => Cell.time t
  | Cell.num q => Cell.time ⌊q⌋
  | Cell.str s =>
    match s.splitOn "-" with
    | [y, m, d] =>
      if y.length == 4 && m.length == 2 && d.length == 2 then
        match y.toNat?, m.toNat?, d.toNat? with
        | some yn, some mn, some dn => Cell.time ((yn * 10000 + mn * 100 + dn : ℕ) : ℤ)
        | _, _, _ => Cell.null
      else Cell.null
    | _ => Cell.null

/-- Model of `pd.to_numeric(·, errors='coerce')` on one cell (integer
literals only — no claim depends on decimal parsing; unparseable becomes
null). -/
def toNumericCell : Cell → Cell
  | Cell.null => Cell.null
  | Cell.num q => Cell.num q
  | Cell.time _ => Cell.null
  | Cell.str s =>
    match s.toInt? with
    | some n => Cell.num (n : ℚ)
    | none => Cell.null

/-! ## Cleaning pipeline: `DataProcessor` -/

/-- One structured processing-log entry per f-string of the source. -/
inductive LogEntry where
  | filledNulls (column method : String)
  | removedOutliers (column method : String)
  | convertedType (column target : String)
  | droppedColumn (column : String)
  | droppedNullRows (column : String)
  | stepError (action column : String)
  | droppedColumns (columns : List String)
  | createdFeature (name : String)
  | featureError (name : String)
  | appliedFilter (criterion : String)
  | filterError (criterion : String)
  | finalShape (rows cols : Nat)
deriving DecidableEq, Repr

/-- The `parameters` dict of a cleaning step (each `params.get` key). -/
structure CleanParams where
  method : Option String := none
  value : Option Cell := none
  threshold : Option ℚ := none
  target_type : Option String := none
deriving DecidableEq, Repr

/-- One element of `cleaning_steps`. -/
structure CleaningStep where
  action : String
  column_name : String
  parameters : CleanParams := {}
deriving DecidableEq, Repr

/-- The row predicate of the IQR branch:
`(df[column] >= Q1 - 1.5*IQR) & (df[column] <= Q3 + 1.5*IQR)`; comparisons
against NaN bounds (empty column) or of NaN cells are false in pandas. -/
def iqrKeep (xs : List ℚ) : Cell → Bool :=
  match quantile xs (1/4), quantile xs (3/4) with
  | some q1, some q3 =>
    let iqr := q3 - q1
    let lower_bound := q1 - 3/2 * iqr
    let upper_bound := q3 + 3/2 * iqr
    fun v => match v with
      | Cell.num q => decide (lower_bound ≤ q) && decide (q ≤ upper_bound)
      | _ => false
  | _, _ => fun _ => false

/-- The row predicate of the z-score branch:
`|x - mean|/std < threshold`, phrased as `(x-mean)^2 < threshold^2 * var`
(equivalent for positive std and threshold; with NaN or zero std, or a
non-positive threshold, the pandas comparison is false everywhere, as
here). -/
def zscoreKeep (xs : List ℚ) (t : ℚ) : Cell → Bool :=
  match meanQ xs, sampleVarQ xs with
  | some m, some v =>
    fun c => match c with
      | Cell.num q => decide (0 < t) && decide ((q - m)^2 < t^2 * v)
      | _ => false
  | _, _ => fun _ => false

/-- One iteration of the `apply_cleaning` loop.  The returned list is the
log entries this step appends: `[]` when the step silently skips (no
branch of the source matches), a `stepError` when the Python body raises
and the `except` block logs. -/
def applyCleaningStep (df : DataFrame) (step : CleaningStep) : DataFrame × List LogEntry :=
  let column := step.column_name
  let params := step.parameters
  if step.action == "fill_nulls" then
    let method := params.method.getD "mean"
    match df.getCol column with
    | none => (df, [LogEntry.stepError "fill_nulls" column])
    | some c =>
      if method == "mean" && c.dtype == Dtype.numeric then
        (match meanQ (numericValues c.values) with
         | none => (df, [LogEntry.filledNulls column method])
         | some m =>
           (df.updateCol column (fun cc => { cc with values := fillValues (Cell.num m) cc.values }),
            [LogEntry.filledNulls column method]))
      else if method == "median" && c.dtype == Dtype.numeric then
        (match quantile (numericValues c.values) (1/2) with
         | none => (df, [LogEntry.filledNulls column method])
         | some m =>
           (df.updateCol column (fun cc => { cc with values := fillValues (Cell.num m) cc.values }),
            [LogEntry.filledNulls column method]))
      else if method == "mode" then
        (match colMode c.values with
         | none => (df, [LogEntry.stepError "fill_nulls" column])
         | some m =>
           (df.updateCol column (fun cc => { cc with values := fillValues m cc.values }),
            [LogEntry.filledNulls column method]))
      else if method == "forward_fill" then
        (df.updateCol column (fun cc => { cc with values := ffill Cell.null cc.values }),
         [LogEntry.filledNulls column method])
      else
        (df.updateCol column (fun cc =>
           { cc with values := fillValues (params.value.getD (Cell.str "Unknown")) cc.values }),
         [LogEntry.filledNulls column method])
  else if step.action == "remove_outliers" then
    let method := params.method.getD "iqr"
    if method == "iqr" then
      (match df.getCol column with
       | none => (df, [LogEntry.stepError "remove_outliers" column])
       | some c =>
         if c.dtype == Dtype.numeric then
           (df.filterByCol column (iqrKeep (numericValues c.values)),
            [LogEntry.removedOutliers column "IQR"])
         else (df, []))
    else if method == "zscore" then
      (match df.getCol column with
       | none => (df, [LogEntry.stepError "remove_outliers" column])
       | some c =>
         if c.dtype == Dtype.numeric then
           (df.filterByCol column (zscoreKeep (numericValues c.values) (params.threshold.getD 3)),
            [LogEntry.removedOutliers column "Z-score"])
         else (df, []))
    else (df, [])
  else if step.action == "convert_type" then
    match params.target_type with
    | some "datetime" =>
      (match df.getCol column with
       | none => (df, [LogEntry.stepError "convert_type" column])
       | some _ =>
         (df.updateCol column (fun cc =>
            { cc with dtype := Dtype.datetime, values := cc.values.map toDatetimeCell }),
          [LogEntry.convertedType column "datetime"]))
    | some "numeric" =>
      (match df.getCol column with
       | none => (df, [LogEntry.stepError "convert_type" column])
       | some _ =>
         (df.updateCol column (fun cc =>
            { cc with dtype := Dtype.numeric, values := cc.values.map toNumericCell }),
          [LogEntry.convertedType column "numeric"]))
    | some "string" =>
      (match df.getCol column with
       | none => (df, [LogEntry.stepError "convert_type" column])
       | some _ =>
         (df.updateCol column (fun cc =>
            { cc with dtype := Dtype.object,
                      values := cc.values.map (fun v => Cell.str (cellToString v)) }),
          [LogEntry.convertedType column "string"]))
    | _ => (df, [])
  else if step.action == "drop_column" then
    if df.hasCol column then (df.dropCol column, [LogEntry.droppedColumn column])
    else (df, [])
  else if step.action == "drop_nulls" then
    match df.getCol column with
    | none => (df, [LogEntry.stepError "drop_nulls" column])
    | some _ =>
      (df.filterByCol column (fun v => !v.isNull), [LogEntry.droppedNullRows column])
  else (df, [])

/-- Does a cleaning step execute or error (as opposed to being silently
skipped)?  Transcribed from the branch guards of the source: `fill_nulls`
and `drop_nulls` always log (an error on a missing column, otherwise their
success line); `remove_outliers` executes only for method iqr/zscore and
then errors on a missing column and silently skips a non-numeric one;
`convert_type` only for the three known targets; `drop_column` only when
the column exists; unknown actions never. -/
def stepApplies (df : DataFrame) (s : CleaningStep) : Bool :=
  if s.action == "fill_nulls" then true
  else if s.action == "remove_outliers" then
    let m := s.parameters.method.getD "iqr"
    (m == "iqr" || m == "zscore") &&
      (match df.getCol s.column_name with
       | none => true
       | some c => c.dtype == Dtype.numeric)
  else if s.action == "convert_type" then
    (match s.parameters.target_type with
     | some "datetime" => true
     | some "numeric" => true
     | some "string" => true
     | _ => false)
  else if s.action == "drop_column" then df.hasCol s.column_name
  else if s.action == "drop_nulls" then true
  else false

/-- The shared loop shape of `apply_cleaning`, `apply_feature_engineering`
and `apply_filtering`: fold the per-step function over the step list,
concatenating the per-step log entries in order. -/
def pipeLoop {σ : Type} (stepF : DataFrame → σ → DataFrame × List LogEntry) :
    DataFrame → List σ → DataFrame × List LogEntry
  | df, [] => (df, [])
  | df, s :: rest =>
    let r1 := stepF df s
    let r2 := pipeLoop stepF r1.1 rest
    (r2.1, r1.2 ++ r2.2)

/-- `DataProcessor.apply_cleaning` (the `df.copy()` at entry is the
identity on values). -/
def apply_cleaning (df : DataFrame) (steps : List CleaningStep) : DataFrame × List LogEntry :=
  pipeLoop applyCleaningStep df steps

/-- `df[name] = series`: replace the column when present, else append it. -/
def DataFrame.setCol (df : DataFrame) (name : String) (dtype : Dtype) (vals : List Cell) :
    DataFrame :=
  if df.hasCol name then df.updateCol name (fun c => { c with dtype := dtype, values := vals })
  else ⟨df.cols ++ [⟨name, dtype, vals⟩]⟩

/-- `.dt.year` on the abstract date code (`NaT` gives NaN). -/
def cellYear : Cell → Cell
  | Cell.time t => Cell.num ((t / 10000 : ℤ) : ℚ)
  | _ => Cell.null

/-- `.dt.month` on the abstract date code. -/
def cellMonth : Cell → Cell
  | Cell.time t => Cell.num (((t / 100) % 100 : ℤ) : ℚ)
  | _ => Cell.null

/-- `.dt.day` on the abstract date code. -/
def cellDay : Cell → Cell
  | Cell.time t => Cell.num ((t % 100 : ℤ) : ℚ)
  | _ => Cell.null

/-- The i-th row restricted to the named columns (as `df[source_cols]`
row-wise access; missing names are skipped — callers check presence). -/
def rowCells (df : DataFrame) (names : List String) (i : Nat) : List Cell :=
  names.filterMap (fun n => (df.getCol n).map (fun c => c.values.getD i Cell.null))

/-- `df[source_cols].astype(str).agg(' '.join, axis=1)`. -/
def concatRows (df : DataFrame) (src : List String) : List Cell :=
  (List.range df.nrows).map (fun i =>
    Cell.str (String.intercalate " " ((rowCells df src i).map cellToString)))

/-- `df[source_cols].sum(axis=1)` (NaN skipped, all-NaN row sums to 0). -/
def rowwiseSum (df : DataFrame) (src : List String) : List Cell :=
  (List.range df.nrows).map (fun i => Cell.num ((numericValues (rowCells df src i)).sum))

/-- `df[source_cols].mean(axis=1)` (NaN skipped, all-NaN row is NaN). -/
def rowwiseMean (df : DataFrame) (src : List String) : List Cell :=
  (List.range df.nrows).map (fun i =>
    match meanQ (numericValues (rowCells df src i)) with
    | none => Cell.null
    | some m => Cell.num m)

/-- Display form of a right-closed cut interval (model of the label
`pd.cut` renders when no labels are given). -/
def intervalLabel (lo hi : ℚ) : String :=
  "(" ++ toString lo ++ ", " ++ toString hi ++ "]"

/-- `numpy.linspace a b (n+1)` over `ℚ` (the `n`-bin edge grid). -/
def linspaceQ (a b : ℚ) (n : Nat) : List ℚ :=
  (List.range (n+1)).map (fun i => a + (b - a) * (i : ℚ) * (1 / (n : ℚ)))

/-- Assignment of one cell to a right-closed bin `(e_i, e_{i+1}]`; values
outside every bin (and non-numeric cells) become NaN. -/
def cutCell (edges : List ℚ) (labels : List String) : Cell → Cell
  | Cell.num q =>
    (match (List.range labels.length).find? (fun i =>
        decide (edges.getD i 0 < q) && decide (q ≤ edges.getD (i+1) 0)) with
     | some i => Cell.str (labels.getD i "")
     | none => Cell.null)
  | _ => Cell.null

/-- Pairwise strict monotonicity of bin edges (`pd.cut` raises otherwise). -/
def strictlyIncreasing (xs : List ℚ) : Bool :=
  (xs.zip xs.tail).all (fun p => decide (p.1 < p.2))

/-- `pd.cut(col, bins=n, labels=labels)`: equal-width edges over the data
range, lowest edge widened by 0.1% of the range (pandas widens both ends
when the range is empty); `none` models the `ValueError`s pandas raises
(zero bins, no numeric data, label count mismatch). -/
def binNumericValues (vals : List Cell) (n : Nat) (labels : Option (List String)) :
    Option (List Cell) :=
  if n == 0 then none
  else
    match numericValues vals with
    | [] => none
    | x :: xs =>
      let mn := xs.foldr min x
      let mx := xs.foldr max x
      let edges :=
        if mn == mx then
          linspaceQ (mn - (if mn == 0 then 1/1000 else |mn| * (1/1000)))
                    (mx + (if mx == 0 then 1/1000 else |mx| * (1/1000))) n
        else
          match linspaceQ mn mx n with
          | e0 :: es => (e0 - (mx - mn) * (1/1000)) :: es
          | [] => []
      let labs :=
        match labels with
        | some ls => if ls.length == n then some ls else none
        | none => some ((edges.zip edges.tail).map (fun p => intervalLabel p.1 p.2))
      match labs with
      | none => none
      | some ls => some (vals.map (cutCell edges ls))

/-- `pd.cut(col, bins=edges, labels=labels)` with explicit edges; `none`
models the `ValueError`s (fewer than two edges, non-monotone edges, label
count mismatch — note the source's default `labels=[]` always mismatches). -/
def categorizeValues (vals : List Cell) (edges : List ℚ) (labels : List String) :
    Option (List Cell) :=
  if decide (2 ≤ edges.length) && strictlyIncreasing edges
      && (labels.length == edges.length - 1) then
    some (vals.map (cutCell edges labels))
  else none

/-- The `parameters` dict of a feature spec.  Python overloads the one key
`bins` (an int for `bin_numeric`, an edge list for `categorize`); the two
readings get separate optional fields here. -/
structure FeatureParams where
  bins_count : Option Nat := none
  bins_edges : Option (List ℚ) := none
  labels : Option (List String) := none
deriving DecidableEq, Repr

/-- One element of `feature_engineering`. -/
structure FeatureSpec where
  new_column_name : String
  operation : String
  source_columns : List String := []
  parameters : FeatureParams := {}
deriving DecidableEq, Repr

/-- One iteration of the `apply_feature_engineering` loop; `featureError`
entries are the logged `except` branch, `[]` the silent no-match case. -/
def applyFeatureStep (df : DataFrame) (f : FeatureSpec) : DataFrame × List LogEntry :=
  let new_col := f.new_column_name
  let src := f.source_columns
  if f.operation == "extract_year" && !src.isEmpty then
    (match df.getCol (src.getD 0 "") with
     | none => (df, [LogEntry.featureError new_col])
     | some c =>
       (df.setCol new_col Dtype.numeric (c.values.map (fun v => cellYear (toDatetimeCell v))),
        [LogEntry.createdFeature new_col]))
  else if f.operation == "extract_month" && !src.isEmpty then
    (match df.getCol (src.getD 0 "") with
     | none => (df, [LogEntry.featureError new_col])
     | some c =>
       (df.setCol new_col Dtype.numeric (c.values.map (fun v => cellMonth (toDatetimeCell v))),
        [LogEntry.createdFeature new_col]))
  else if f.operation == "extract_day" && !src.isEmpty then
    (match df.getCol (src.getD 0 "") with
     | none => (df, [LogEntry.featureError new_col])
     | some c =>
       (df.setCol new_col Dtype.numeric (c.values.map (fun v => cellDay (toDatetimeCell v))),
        [LogEntry.createdFeature new_col]))
  else if f.operation == "concatenate" && decide (2 ≤ src.length) then
    (if src.all df.hasCol then
       (df.setCol new_col Dtype.object (concatRows df src), [LogEntry.createdFeature new_col])
     else (df, [LogEntry.featureError new_col]))
  else if f.operation == "sum" && !src.isEmpty then
    (if src.all df.hasCol then
       (df.setCol new_col Dtype.numeric (rowwiseSum df src), [LogEntry.createdFeature new_col])
     else (df, [LogEntry.featureError new_col]))
  else if f.operation == "average" && !src.isEmpty then
    (if src.all df.hasCol then
       (df.setCol new_col Dtype.numeric (rowwiseMean df src), [LogEntry.createdFeature new_col])
     else (df, [LogEntry.featureError new_col]))
  else if f.operation == "bin_numeric" && !src.isEmpty then
    (match df.getCol (src.getD 0 "") with
     | none => (df, [LogEntry.featureError new_col])
     | some c =>
       match binNumericValues c.values (f.parameters.bins_count.getD 5) f.parameters.labels with
       | none => (df, [LogEntry.featureError new_col])
       | some vals =>
         (df.setCol new_col Dtype.object vals, [LogEntry.createdFeature new_col]))
  else if f.operation == "categorize" && !src.isEmpty then
    (match df.getCol (src.getD 0 "") with
     | none => (df, [LogEntry.featureError new_col])
     | some c =>
       match categorizeValues c.values (f.parameters.bins_edges.getD [])
           (f.parameters.labels.getD []) with
       | none => (df, [LogEntry.featureError new_col])
       | some vals =>
         (df.setCol new_col Dtype.object vals, [LogEntry.createdFeature new_col]))
  else (df, [])

/-- `DataProcessor.apply_feature_engineering`. -/
def apply_feature_engineering (df : DataFrame) (features : List FeatureSpec) :
    DataFrame × List LogEntry :=
  pipeLoop applyFeatureStep df features

/-- Model of Python `float()` on the trimmed second half of a criterion
(decimal integer or point literals; scientific notation is not modelled —
no claim uses it).  `none` is the `ValueError` the source catches. -/
def parseFloatModel (s : String) : Option ℚ :=
  let t := s.trim
  match t.toInt? with
  | some n => some ((n : ℤ) : ℚ)
  | none =>
    match t.splitOn "." with
    | [a, b] =>
      if !b.isEmpty && b.toList.all Char.isDigit then
        match b.toNat? with
        | none => none
        | some nb =>
          let frac : ℚ := (nb : ℚ) * (1 / ((10:ℚ) ^ b.length))
          (if a == "" then some frac
           else if a == "-" then some (-frac)
           else match a.toInt? with
           | none => none
           | some na =>
             if a.startsWith "-" then some ((na : ℚ) - frac) else some ((na : ℚ) + frac))
      else none
    | _ => none

/-- `value.strip('"\x27')`: strip any leading/trailing quote characters. -/
def stripQuotes (s : String) : String :=
  let isQ := fun c => c == '"' || c == '\''
  String.mk (((s.toList.dropWhile isQ).reverse.dropWhile isQ).reverse)

/-- One iteration of the `apply_filtering` loop.  `filterError` models the
logged `except` branch (unparseable number, missing column, or the
`TypeError` pandas raises when ordering a non-numeric column against a
float); a criterion matching no operator pattern is silently skipped. -/
def applyFilterCriterion (df : DataFrame) (criterion : String) : DataFrame × List LogEntry :=
  if criterion.contains '>' && !criterion.contains '<' then
    (let parts := criterion.splitOn ">"
     let col := (parts.getD 0 "").trim
     match parseFloatModel (parts.getD 1 "") with
     | none => (df, [LogEntry.filterError criterion])
     | some v =>
       match df.getCol col with
       | none => (df, [LogEntry.filterError criterion])
       | some c =>
         if c.dtype == Dtype.numeric then
           (df.filterByCol col (fun cell =>
              match cell with | Cell.num q => decide (v < q) | _ => false),
            [LogEntry.appliedFilter criterion])
         else (df, [LogEntry.filterError criterion]))
  else if criterion.contains '<' && !criterion.contains '>' then
    (let parts := criterion.splitOn "<"
     let col := (parts.getD 0 "").trim
     match parseFloatModel (parts.getD 1 "") with
     | none => (df, [LogEntry.filterError criterion])
     | some v =>
       match df.getCol col with
       | none => (df, [LogEntry.filterError criterion])
       | some c =>
         if c.dtype == Dtype.numeric then
           (df.filterByCol col (fun cell =>
              match cell with | Cell.num q => decide (q < v) | _ => false),
            [LogEntry.appliedFilter criterion])
         else (df, [LogEntry.filterError criterion]))
  else if (criterion.splitOn "==").length ≥ 2 then
    (let parts := criterion.splitOn "=="
     let col := (parts.getD 0 "").trim
     let value := stripQuotes (parts.getD 1 "").trim
     match df.getCol col with
     | none => (df, [LogEntry.filterError criterion])
     | some _ =>
       (df.filterByCol col (fun cell => cell == Cell.str value),
        [LogEntry.appliedFilter criterion]))
  else if (criterion.splitOn "!=").length ≥ 2 then
    (let parts := criterion.splitOn "!="
     let col := (parts.getD 0 "").trim
     let value := stripQuotes (parts.getD 1 "").trim
     match df.getCol col with
     | none => (df, [LogEntry.filterError criterion])
     | some _ =>
       (df.filterByCol col (fun cell => !(cell == Cell.str value)),
        [LogEntry.appliedFilter criterion]))
  else (df, [])

/-- `DataProcessor.apply_filtering`. -/
def apply_filtering (df : DataFrame) (criteria : List String) : DataFrame × List LogEntry :=
  pipeLoop applyFilterCriterion df criteria

/-- The recommendation document consumed by `process_data`. -/
structure Recommendation where
  columns_to_drop : List String := []
  cleaning_steps : List CleaningStep := []
  feature_engineering : List FeatureSpec := []
  filtering_criteria : List String := []
deriving Repr

/-- `df.drop(columns=[c for c in columns_to_drop if c in df.columns])`. -/
def dropColumns (df : DataFrame) (names : List String) : DataFrame :=
  ⟨df.cols.filter (fun c => !(names.contains c.name))⟩

/-- The drop stage of `process_data` (`if columns_to_drop:` Python
truthiness, one log entry for the whole set). -/
def dropStage (df : DataFrame) (cols : List String) : DataFrame × List LogEntry :=
  if cols.isEmpty then (df, [])
  else (dropColumns df cols, [LogEntry.droppedColumns cols])

/-- The cleaning stage of `process_data`. -/
def cleanStage (df : DataFrame) (steps : List CleaningStep) : DataFrame × List LogEntry :=
  if steps.isEmpty then (df, []) else apply_cleaning df steps

/-- The feature-engineering stage of `process_data`. -/
def featStage (df : DataFrame) (features : List FeatureSpec) : DataFrame × List LogEntry :=
  if features.isEmpty then (df, []) else apply_feature_engineering df features

/-- The filtering stage of `process_data`. -/
def filterStage (df : DataFrame) (criteria : List String) : DataFrame × List LogEntry :=
  if criteria.isEmpty then (df, []) else apply_filtering df criteria

/-- `DataProcessor.process_data`: drop, clean, engineer, filter (each stage
guarded by Python truthiness of its list), then the final shape line.  The
`processing_log` reset at entry is inherent to the returned-value model. -/
def process_data (df : DataFrame) (rec : Recommendation) : DataFrame × List LogEntry :=
  let s1 := dropStage df rec.columns_to_drop
  let s2 := cleanStage s1.1 rec.cleaning_steps
  let s3 := featStage s2.1 rec.feature_engineering
  let s4 := filterStage s3.1 rec.filtering_criteria
  (s4.1, s1.2 ++ s2.2 ++ s3.2 ++ s4.2 ++ [LogEntry.finalShape s4.1.nrows s4.1.ncols])

/-! ## Object-identity model for the frame-effect claim

In Lean's value semantics "no mutation" would be vacuous, so the pipeline
is replayed over an explicit heap: `Store` is the list of live DataFrame
objects in allocation order, a `Ref` is an index into it, in-place
operations (`inplace=True`, `df[col] = ...`) overwrite the referenced slot
and rebinding operations (`df.copy()`, `df.drop(...)`, `df = df[...]`)
allocate.  The claim then says the slot a caller passed in is unchanged. -/

/-- The empty frame (read fallback; never hit on valid references). -/
def dfEmpty : DataFrame := ⟨[]⟩

/-- A heap of live DataFrame objects. -/
abbrev Store := List DataFrame

/-- A Python variable holding a DataFrame: an index into the store. -/
abbrev Ref := Nat

/-- Dereference. -/
def Store.read (st : Store) (r : Ref) : DataFrame := st.getD r dfEmpty

/-- Does this cleaning step rebind `df` to a new object (`df = df[...]`)
rather than mutate in place?  Exactly when a remove-outliers filter line
executes — which is precisely when the step logs a removed-outliers
entry. -/
def cleaningStepRebinds (d : DataFrame) (s : CleaningStep) : Bool :=
  match (applyCleaningStep d s).2 with
  | [LogEntry.removedOutliers _ _] => true
  | _ => false

/-- Does this filter criterion rebind `df` (`df = df[...]`)?  Exactly when
the criterion is applied successfully. -/
def filterCriterionRebinds (d : DataFrame) (c : String) : Bool :=
  match (applyFilterCriterion d c).2 with
  | [LogEntry.appliedFilter _] => true
  | _ => false

/-- Store-level loop: each iteration reads the current object, then either
mutates it in place (`List.set` on its slot) or allocates the rebound
result and moves the variable to it. -/
def pipeLoopS {σ : Type} (stepF : DataFrame → σ → DataFrame × List LogEntry)
    (rebinds : DataFrame → σ → Bool) :
    Store → Ref → List σ → (Store × Ref) × List LogEntry
  | st, r, [] => ((st, r), [])
  | st, r, s :: rest =>
    let d := st.read r
    let step := stepF d s
    if rebinds d s then
      let res := pipeLoopS stepF rebinds (st ++ [step.1]) st.length rest
      (res.1, step.2 ++ res.2)
    else
      let res := pipeLoopS stepF rebinds (st.set r step.1) r rest
      (res.1, step.2 ++ res.2)

/-- Copy-then-loop shape shared by the three `apply_*` helpers
(`df = df.copy()` allocates; the loop then touches only the copy). -/
def copyLoopS {σ : Type} (stepF : DataFrame → σ → DataFrame × List LogEntry)
    (rebinds : DataFrame → σ → Bool) (st : Store) (r : Ref) (steps : List σ) :
    (Store × Ref) × List LogEntry :=
  pipeLoopS stepF rebinds (st ++ [st.read r]) st.length steps

/-- Store-level `apply_cleaning`. -/
def applyCleaningS (st : Store) (r : Ref) (steps : List CleaningStep) :
    (Store × Ref) × List LogEntry :=
  copyLoopS applyCleaningStep cleaningStepRebinds st r steps

/-- Store-level `apply_feature_engineering` (every feature op writes a
column of the copy in place; nothing rebinds). -/
def applyFeaturesS (st : Store) (r : Ref) (features : List FeatureSpec) :
    (Store × Ref) × List LogEntry :=
  copyLoopS applyFeatureStep (fun _ _ => false) st r features

/-- Store-level `apply_filtering`. -/
def applyFilteringS (st : Store) (r : Ref) (criteria : List String) :
    (Store × Ref) × List LogEntry :=
  copyLoopS applyFilterCriterion filterCriterionRebinds st r criteria

/-- Store-level drop stage (`df.drop(columns=...)` is not in-place: it
allocates). -/
def dropStageS (st : Store) (r : Ref) (cols : List String) : (Store × Ref) × List LogEntry :=
  if cols.isEmpty then ((st, r), [])
  else ((st ++ [dropColumns (st.read r) cols], st.length), [LogEntry.droppedColumns cols])

/-- Store-level cleaning stage. -/
def cleanStageS (st : Store) (r : Ref) (steps : List CleaningStep) :
    (Store × Ref) × List LogEntry :=
  if steps.isEmpty then ((st, r), []) else applyCleaningS st r steps

/-- Store-level feature stage. -/
def featStageS (st : Store) (r : Ref) (features : List FeatureSpec) :
    (Store × Ref) × List LogEntry :=
  if features.isEmpty then ((st, r), []) else applyFeaturesS st r features

/-- Store-level filter stage. -/
def filterStageS (st : Store) (r : Ref) (criteria : List String) :
    (Store × Ref) × List LogEntry :=
  if criteria.isEmpty then ((st, r), []) else applyFilteringS st r criteria

/-- Store-level `process_data`: with all stages empty the input reference
itself is returned, untouched. -/
def process_dataS (st : Store) (r : Ref) (rec : Recommendation) :
    (Store × Ref) × List LogEntry :=
  let s1 := dropStageS st r rec.columns_to_drop
  let s2 := cleanStageS s1.1.1 s1.1.2 rec.cleaning_steps
  let s3 := featStageS s2.1.1 s2.1.2 rec.feature_engineering
  let s4 := filterStageS s3.1.1 s3.1.2 rec.filtering_criteria
  (s4.1, s1.2 ++ s2.2 ++ s3.2 ++ s4.2 ++
    [LogEntry.finalShape (s4.1.1.read s4.1.2).nrows (s4.1.1.read s4.1.2).ncols])

/-- The refinement contract between a store-level stage and its pure
counterpart: same log, a valid result reference, a store that only grew,
the result slot holding the pure result, and every pre-existing slot
unchanged. -/
def StageOk (sf : Store → Ref → (Store × Ref) × List LogEntry)
    (pf : DataFrame → DataFrame × List LogEntry) : Prop :=
  ∀ (st : Store) (r : Ref), r < st.length →
    (sf st r).2 = (pf (st.read r)).2 ∧
    (sf st r).1.2 < (sf st r).1.1.length ∧
    st.length ≤ (sf st r).1.1.length ∧
    (sf st r).1.1.read (sf st r).1.2 = (pf (st.read r)).1 ∧
    ∀ i, i < st.length → (sf st r).1.1.read i = st.read i

/-! ## SchemaAnalyzer: `DataProcessor.analyze_schema` -/

/-- Per-column profile produced by `analyze_schema` (`dtype` string and
memory estimate omitted: no claim mentions them and the memory model is
interpreter-specific). -/
structure ColumnProfile where
  name : String
  null_count : Nat
  null_percentage : ℚ
  unique_count : Nat
  sample_values : List Cell
  is_numeric : Bool
  is_datetime : Bool
  is_categorical : Bool
deriving DecidableEq, Repr

/-- The dictionary returned by `analyze_schema` (without `memory_usage_mb`). -/
structure SchemaProfile where
  columns : List ColumnProfile
  row_count : Nat
  column_count : Nat
deriving DecidableEq, Repr

/-- Python `round(x, 2)`, i.e. rounding to the nearest multiple of `1/100`.
Exact on the values this code produces; Python rounds half to even while
this rounds half up, which differs only at exact half-points of the second
decimal and affects no claim. -/
def round2 (q : ℚ) : ℚ := ((⌊q * 100 + 1/2⌋ : ℤ) : ℚ) / 100

/-- The per-column dictionary built in the `analyze_schema` loop. -/
def columnProfileOf (df : DataFrame) (c : Col) : ColumnProfile :=
  let n := df.nrows
  let nc := nullCount c.values
  { name := c.name
    null_count := nc
    null_percentage := if 0 < n then round2 (((nc : ℚ) / (n : ℚ)) * 100) else 0
    unique_count := nunique c.values
    sample_values := (c.values.filter (fun v => !v.isNull)).take 5
    is_numeric := c.dtype == Dtype.numeric
    is_datetime := c.dtype == Dtype.datetime
    is_categorical := c.dtype == Dtype.object ||
      decide ((nunique c.values : ℚ) < min 50 ((n : ℚ) * (1/10))) }

/-- `DataProcessor.analyze_schema`. -/
def analyze_schema (df : DataFrame) : SchemaProfile :=
  { columns := df.cols.map (columnProfileOf df)
    row_count := df.nrows
    column_count := df.ncols }

/-! ## Chart compatibility: `VisualizationService` -/

/-- The `ChartType` enumeration of `models/schemas.py`. -/
inductive ChartType where
  | line
  | bar
  | scatter
  | pie
  | area
  | box
  | heatmap
  | horizontal_bar
  | stacked_bar
  | grouped_bar
  | donut
  | bubble
  | violin
deriving DecidableEq, Repr

/-- `VisualizationService.compatibility_matrix`, transcribed row by row. -/
def compatibility_matrix : ChartType → List ChartType
  | ChartType.line => [ChartType.area, ChartType.scatter, ChartType.bar]
  | ChartType.area => [ChartType.line, ChartType.scatter]
  | ChartType.bar =>
      [ChartType.horizontal_bar, ChartType.stacked_bar, ChartType.grouped_bar, ChartType.line]
  | ChartType.horizontal_bar => [ChartType.bar, ChartType.stacked_bar]
  | ChartType.stacked_bar => [ChartType.bar, ChartType.grouped_bar, ChartType.horizontal_bar]
  | ChartType.grouped_bar => [ChartType.bar, ChartType.stacked_bar]
  | ChartType.scatter => [ChartType.line, ChartType.bubble, ChartType.area]
  | ChartType.bubble => [ChartType.scatter]
  | ChartType.pie => [ChartType.donut, ChartType.bar]
  | ChartType.donut => [ChartType.pie, ChartType.bar]
  | ChartType.box => [ChartType.violin]
  | ChartType.violin => [ChartType.box]
  | ChartType.heatmap => []

/-- `VisualizationService.get_compatible_chart_types`: the full matrix row
(`dict.get` with default `[]`; the matrix covers every chart type, so the
default never fires). -/
def get_compatible_chart_types (current_type : ChartType) : List ChartType :=
  compatibility_matrix current_type

/-- `x_is_datetime` of `suggest_optimal_chart`
(`pd.api.types.is_datetime64_any_dtype`). -/
def xIsDatetimeB (cx : Col) : Bool :=
  cx.dtype == Dtype.datetime

/-- `x_is_numeric` of `suggest_optimal_chart`. -/
def xIsNumericB (cx : Col) : Bool :=
  cx.dtype == Dtype.numeric

/-- `x_is_categorical` of `suggest_optimal_chart`:
`df[x_col].dtype == 'object' or df[x_col].nunique() < min(50, len(df) * 0.1)`,
with the float arithmetic carried out exactly in `ℚ` (the one-ulp error of
the binary float `0.1`, visible only at exact multiples of 10 rows, is not
modelled; no claim depends on it). -/
def xIsCategoricalB (df : DataFrame) (cx : Col) : Bool :=
  cx.dtype == Dtype.object ||
    decide ((nunique cx.values : ℚ) < min 50 ((df.nrows : ℚ) * (1/10)))

/-- `y_is_numeric`: `all(is_numeric_dtype(df[y]) for y in y_cols if y in df.columns)`
(vacuously true when no listed y column exists). -/
def ysNumericB (df : DataFrame) (yCols : List String) : Bool :=
  yCols.all (fun y =>
    match df.getCol y with
    | none => true
    | some c => c.dtype == Dtype.numeric)

/-- `VisualizationService.suggest_optimal_chart`.  `none` models the
`KeyError` Python raises when `x_col` is absent. -/
def suggest_optimal_chart (df : DataFrame) (xCol : String) (yCols : List String) :
    Option ChartType :=
  match df.getCol xCol with
  | none => none
  | some cx =>
    let xdt := xIsDatetimeB cx
    let xnum := xIsNumericB cx
    let xcat := xIsCategoricalB df cx
    let ynum := ysNumericB df yCols
    some (
      if xdt && ynum && yCols.length == 1 then ChartType.line
      else if xcat && ynum then
        (if yCols.length == 1 then ChartType.bar else ChartType.grouped_bar)
      else if xnum && ynum && decide (1 ≤ yCols.length) then ChartType.scatter
      else if xcat && yCols.length == 1 && ynum && decide (nunique cx.values ≤ 8) then
        ChartType.pie
      else ChartType.bar)

/-- Per-chart requirement entry of `chart_requirements` (`value_type` is
stored for HEATMAP but never read by the validator, as in the source). -/
structure ChartRequirement where
  min_dimensions : Nat
  max_dimensions : Nat
  x_type : List String
  y_type : List String
  requires_ordered_x : Bool
  value_type : List String := []
deriving DecidableEq, Repr

/-- `VisualizationService.chart_requirements`, transcribed row by row.
Every chart type has an entry, so the source's `requirements.get(..., {})`
default and its trivially-compatible early return are unreachable. -/
def chart_requirements : ChartType → ChartRequirement
  | ChartType.line =>
    { min_dimensions := 2, max_dimensions := 3,
      x_type := ["temporal", "sequential", "numeric"], y_type := ["numeric"],
      requires_ordered_x := true }
  | ChartType.area =>
    { min_dimensions := 2, max_dimensions := 3,
      x_type := ["temporal", "sequential", "numeric"], y_type := ["numeric"],
      requires_ordered_x := true }
  | ChartType.bar =>
    { min_dimensions := 2, max_dimensions := 3,
      x_type := ["categorical", "string"], y_type := ["numeric"],
      requires_ordered_x := false }
  | ChartType.horizontal_bar =>
    { min_dimensions := 2, max_dimensions := 3,
      x_type := ["numeric"], y_type := ["categorical", "string"],
      requires_ordered_x := false }
  | ChartType.stacked_bar =>
    { min_dimensions := 3, max_dimensions := 3,
      x_type := ["categorical"], y_type := ["numeric"],
      requires_ordered_x := false }
  | ChartType.grouped_bar =>
    { min_dimensions := 3, max_dimensions := 3,
      x_type := ["categorical"], y_type := ["numeric"],
      requires_ordered_x := false }
  | ChartType.scatter =>
    { min_dimensions := 2, max_dimensions := 4,
      x_type := ["numeric"], y_type := ["numeric"],
      requires_ordered_x := false }
  | ChartType.bubble =>
    { min_dimensions := 3, max_dimensions := 4,
      x_type := ["numeric"], y_type := ["numeric"],
      requires_ordered_x := false }
  | ChartType.pie =>
    { min_dimensions := 2, max_dimensions := 2,
      x_type := ["categorical"], y_type := ["numeric"],
      requires_ordered_x := false }
  | ChartType.donut =>
    { min_dimensions := 2, max_dimensions := 2,
      x_type := ["categorical"], y_type := ["numeric"],
      requires_ordered_x := false }
  | ChartType.box =>
    { min_dimensions := 2, max_dimensions := 2,
      x_type := ["categorical"], y_type := ["numeric"],
      requires_ordered_x := false }
  | ChartType.violin =>
    { min_dimensions := 2, max_dimensions := 2,
      x_type := ["categorical"], y_type := ["numeric"],
      requires_ordered_x := false }
  | ChartType.heatmap =>
    { min_dimensions := 3, max_dimensions := 3,
      x_type := ["categorical"], y_type := ["categorical"],
      requires_ordered_x := false, value_type := ["numeric"] }

/-- The schema-value string of a chart type (`models/schemas.py`). -/
def chartTypeName : ChartType → String
  | ChartType.line => "line"
  | ChartType.bar => "bar"
  | ChartType.scatter => "scatter"
  | ChartType.pie => "pie"
  | ChartType.area => "area"
  | ChartType.box => "box"
  | ChartType.heatmap => "heatmap"
  | ChartType.horizontal_bar => "horizontal_bar"
  | ChartType.stacked_bar => "stacked_bar"
  | ChartType.grouped_bar => "grouped_bar"
  | ChartType.donut => "donut"
  | ChartType.bubble => "bubble"
  | ChartType.violin => "violin"

/-- The `data_info` dict passed to `validate_chart_compatibility`
(`.get('x_axis')`, `.get('y_axis', [])`, `.get('columns', [])`). -/
structure DataInfo where
  x_axis : Option String := none
  y_axis : List String := []
  columns : List ColumnProfile := []
deriving Repr

/-- The verdict dict of `validate_chart_compatibility`. -/
structure CompatibilityResult where
  is_compatible : Bool
  reason : String
  suggested_alternatives : List ChartType
deriving DecidableEq, Repr

/-- The list of issue strings `validate_chart_compatibility` accumulates:
the two dimension-count checks, then the x-axis semantic check (skipped
when the x column has no profile), then one issue per mismatched y-axis
column. -/
def validationIssues (ct : ChartType) (info : DataInfo) : List String :=
  let req := chart_requirements ct
  let x_col_info : Option ColumnProfile := match info.x_axis with
    | none => none
    | some x => info.columns.find? (fun c => c.name == x)
  let y_col_infos := info.columns.filter (fun c => info.y_axis.contains c.name)
  let num_dimensions := 1 + info.y_axis.length
  let dimIssues :=
    (if num_dimensions < req.min_dimensions then
      ["Chart requires at least " ++ toString req.min_dimensions ++
       " dimensions, but only " ++ toString num_dimensions ++ " provided"]
     else []) ++
    (if req.max_dimensions < num_dimensions then
      ["Chart supports at most " ++ toString req.max_dimensions ++
       " dimensions, but " ++ toString num_dimensions ++ " provided"]
     else [])
  let xIssues := match x_col_info with
    | none => []
    | some xc =>
      if req.x_type.isEmpty then []
      else
        let x_is_valid :=
          (req.x_type.contains "numeric" && xc.is_numeric) ||
          (req.x_type.contains "categorical" && xc.is_categorical) ||
          (req.x_type.contains "temporal" && xc.is_datetime) ||
          (req.x_type.contains "string" && !xc.is_numeric)
        if x_is_valid then []
        else ["X-axis \x27" ++ xc.name ++ "\x27 type doesn\x27t match requirements: " ++
              toString req.x_type]
  let yIssues :=
    if y_col_infos.isEmpty || req.y_type.isEmpty then []
    else y_col_infos.filterMap (fun yc =>
      let y_is_valid :=
        (req.y_type.contains "numeric" && yc.is_numeric) ||
        (req.y_type.contains "categorical" && yc.is_categorical)
      if y_is_valid then none
      else some ("Y-axis \x27" ++ yc.name ++ "\x27 type doesn\x27t match requirements: " ++
                 toString req.y_type))
  dimIssues ++ xIssues ++ yIssues

/-- `VisualizationService.validate_chart_compatibility`. -/
def validate_chart_compatibility (ct : ChartType) (info : DataInfo) : CompatibilityResult :=
  let issues := validationIssues ct info
  let alternatives := compatibility_matrix ct
  if !issues.isEmpty then
    { is_compatible := false
      reason := String.intercalate "; " issues
      suggested_alternatives := alternatives.take 3 }
  else
    { is_compatible := true
      reason := "Chart type \x27" ++ chartTypeName ct ++
        "\x27 is compatible with the selected data"
      suggested_alternatives := alternatives.take 3 }

/-! ## Chart data preparation: `VisualizationService.prepare_chart_data` -/

/-- A value of the optional `filters` mapping: one scalar or a list. -/
inductive FilterVal where
  | single (c : Cell)
  | many (cs : List Cell)
deriving DecidableEq, Repr

/-- One output record (`to_dict('records')` row): ordered key/value
pairs. -/
abbrev Record := List (String × Cell)

/-- One record of the box-plot branch (the source's `variable` key is
`varKey` here, `variable` being a Lean keyword). -/
structure BoxRecord where
  category : Cell
  varKey : String
  values : List Cell
  q1 : ℚ
  median : ℚ
  q3 : ℚ
  min : ℚ
  max : ℚ
deriving DecidableEq, Repr

/-- The union of record layouts `prepare_chart_data` can return. -/
inductive ChartData where
  | records (rs : List Record)
  | boxes (bs : List BoxRecord)
deriving DecidableEq, Repr

/-- Ordered insertion of a cell. -/
def insertCellBy (le : Cell → Cell → Bool) (x : Cell) : List Cell → List Cell
  | [] => [x]
  | y :: ys => if le x y then x :: y :: ys else y :: insertCellBy le x ys

/-- Ascending cell sort under `Cell.le`. -/
def sortCells (xs : List Cell) : List Cell := xs.foldr (insertCellBy Cell.le) []

/-- The group keys of `df.groupby(col)`: distinct non-null values in
ascending order (pandas sorts group keys and drops NaN keys). -/
def groupKeys (xs : List Cell) : List Cell :=
  sortCells ((xs.filter (fun c => !c.isNull)).dedup)

/-- Sum of the numeric y values in the rows whose x value is `k`
(pandas `sum` skips NaN and sums an empty group to 0). -/
def sumForKey (k : Cell) (rows : List (Cell × Cell)) : ℚ :=
  (rows.filterMap (fun p =>
    if p.1 == k then
      match p.2 with | Cell.num q => some q | _ => none
    else none)).sum

/-- `df.groupby(x)[y].sum()`: one `(key, sum)` pair per distinct non-null
x value, keys ascending. -/
def groupSum (xs ys : List Cell) : List (Cell × ℚ) :=
  (groupKeys xs).map (fun k => (k, sumForKey k (xs.zip ys)))

/-- The filter pre-pass of `prepare_chart_data`: for each filter key that
is a column, keep rows matching the scalar (or any member of the list). -/
def applyChartFilters (df : DataFrame) (filters : Option (List (String × FilterVal))) :
    DataFrame :=
  match filters with
  | none => df
  | some fs =>
    fs.foldl (fun d p =>
      if d.hasCol p.1 then
        d.filterByCol p.1 (fun cell =>
          match p.2 with
          | FilterVal.single v => cell == v
          | FilterVal.many vs => vs.contains cell)
      else d) df

/-- `df[cols].to_dict('records')`: one record per row over the listed
(existing) columns. -/
def projectRecords (df : DataFrame) (cols : List String) : List Record :=
  (List.range df.nrows).map (fun i =>
    cols.filterMap (fun cn => (df.getCol cn).map (fun c => (cn, c.values.getD i Cell.null))))

/-- Sort key order of `sort_values`: nulls last, otherwise `Cell.le`. -/
def timeSortLe : Cell → Cell → Bool
  | Cell.null, _ => false
  | a, Cell.null => !a.isNull
  | a, b => Cell.le a b

/-- Ordered insertion of a row index under a key comparison. -/
def insertIdxBy (le : Nat → Nat → Bool) (x : Nat) : List Nat → List Nat
  | [] => [x]
  | y :: ys => if le x y then x :: y :: ys else y :: insertIdxBy le x ys

/-- `df.sort_values(by=name)` (ascending, NaN last; tie order is not
modelled — pandas' default quicksort is also unstable). -/
def sortRowsBy (df : DataFrame) (name : String) : DataFrame :=
  match df.getCol name with
  | none => df
  | some c =>
    let key := fun i => c.values.getD i Cell.null
    let idx := (List.range df.nrows).foldr
      (fun i acc => insertIdxBy (fun a b => timeSortLe (key a) (key b)) i acc) []
    ⟨df.cols.map (fun cc => { cc with values := idx.map (fun i => cc.values.getD i Cell.null) })⟩

/-- `df.pivot_table(values, index, columns, aggfunc='mean')` followed by
the row-dict loop of the heatmap branch: one record per index key, headed
by `(x_axis, index key)` — the source reuses the x-axis name for the row
index — then one field per column key holding the group mean (NaN when
the group is empty; the `dropna` trimming of all-NaN pivot rows/columns is
not modelled — no claim reaches it). -/
def pivotMean (df : DataFrame) (x_axis idxName valsName : String) : Option (List Record) :=
  match df.getCol valsName, df.getCol idxName, df.getCol x_axis with
  | some cv, some ci, some cc =>
    let rowKeys := groupKeys ci.values
    let colKeys := groupKeys cc.values
    some (rowKeys.map (fun rk =>
      (x_axis, rk) :: colKeys.map (fun ck =>
        (cellToString ck,
         match meanQ (((ci.values.zip cc.values).zip cv.values).filterMap
            (fun p => if p.1.1 == rk && p.1.2 == ck then
               (match p.2 with | Cell.num q => some q | _ => none)
             else none)) with
         | none => Cell.null
         | some m => Cell.num m))))
  | _, _, _ => none

def listMinQ : List ℚ → ℚ
  | [] => 0
  | x :: xs => xs.foldr min x

def listMaxQ : List ℚ → ℚ
  | [] => 0
  | x :: xs => xs.foldr max x

/-- The box branch: per y column (skipping missing ones), per group key,
the dropna value list and its quartile statistics (zeros when the group is
empty); `none` models the uncaught `TypeError` `np.percentile` raises on
non-numeric values. -/
def boxStats (df : DataFrame) (x : String) (ys : List String) : Option (List BoxRecord) :=
  match df.getCol x with
  | none => none
  | some cx =>
    let keys := groupKeys cx.values
    let perY : String → Option (List BoxRecord) := fun y =>
      match df.getCol y with
      | none => some []
      | some cy =>
        let perKey : Cell → Option BoxRecord := fun k =>
          let cells : List Cell := ((cx.values.zip cy.values).filterMap
            (fun p => if p.1 == k then some p.2 else none)).filter (fun c => !c.isNull)
          if cells.all (fun c => match c with | Cell.num _ => true | _ => false) then
            let nums := numericValues cells
            some { category := k, varKey := y, values := cells
                   q1 := (quantile nums (1/4)).getD 0
                   median := (quantile nums (1/2)).getD 0
                   q3 := (quantile nums (3/4)).getD 0
                   min := listMinQ nums
                   max := listMaxQ nums }
          else none
        keys.mapM perKey
    (ys.mapM perY).map List.flatten

/-- `VisualizationService.prepare_chart_data`.  `none` models the uncaught
exceptions (`KeyError` on a column the branch accesses directly, pivot or
percentile failures); note the pie/donut branch with an empty `y_axis` and
the heatmap branch with fewer than 2 y columns fall through to the default
projection at the end of the function. -/
def prepare_chart_data (df0 : DataFrame) (chart_type : ChartType) (x_axis : String)
    (y_axis : List String) (filters : Option (List (String × FilterVal))) :
    Option ChartData :=
  let df := applyChartFilters df0 filters
  if chart_type == ChartType.pie || chart_type == ChartType.donut then
    (match y_axis with
     | [] =>
       some (ChartData.records (projectRecords df (([x_axis] ++ y_axis).filter (df.hasCol ·))))
     | y0 :: _ =>
       match df.getCol x_axis, df.getCol y0 with
       | some cx, some cy =>
         some (ChartData.records ((groupSum cx.values cy.values).map
           (fun p => [(x_axis, p.1), (y0, Cell.num p.2)])))
       | _, _ => none)
  else if [ChartType.bar, ChartType.line, ChartType.area, ChartType.scatter].contains
      chart_type then
    (let cols := ([x_axis] ++ y_axis).filter (df.hasCol ·)
     if chart_type == ChartType.line || chart_type == ChartType.area then
       match df.getCol x_axis with
       | none => none
       | some cx =>
         let df' := if cx.dtype == Dtype.datetime then sortRowsBy df x_axis else df
         some (ChartData.records (projectRecords df' cols))
     else some (ChartData.records (projectRecords df cols)))
  else if chart_type == ChartType.heatmap then
    (if 2 ≤ y_axis.length then
       (pivotMean df x_axis (y_axis.getD 0 "") (y_axis.getD 1 "")).map ChartData.records
     else
       some (ChartData.records (projectRecords df (([x_axis] ++ y_axis).filter (df.hasCol ·)))))
  else if chart_type == ChartType.box then
    (boxStats df x_axis y_axis).map ChartData.boxes
  else
    some (ChartData.records (projectRecords df (([x_axis] ++ y_axis).filter (df.hasCol ·))))

/-! ## Concrete frames used in counterexamples and witnesses -/

/-- A frame with a categorical x column of 3 distinct values and a numeric
y column. -/
def dfCatNum : DataFrame :=
  ⟨[⟨"cat", Dtype.object, [Cell.str "A", Cell.str "B", Cell.str "C"]⟩,
    ⟨"val", Dtype.numeric, [Cell.num 1, Cell.num 2, Cell.num 3]⟩]⟩

/-- A frame with a temporal x column and a numeric y column. -/
def dfTimeNum : DataFrame :=
  ⟨[⟨"d", Dtype.datetime, [Cell.time 1, Cell.time 2, Cell.time 3]⟩,
    ⟨"val", Dtype.numeric, [Cell.num 1, Cell.num 2, Cell.num 3]⟩]⟩

/-- A frame with one row and two all-null columns. -/
def dfBothNull : DataFrame :=
  ⟨[⟨"a", Dtype.object, [Cell.null]⟩, ⟨"b", Dtype.numeric, [Cell.null]⟩]⟩

/-- A one-column object frame holding a string and a null. -/
def dfStrNull : DataFrame :=
  ⟨[⟨"s", Dtype.object, [Cell.str "a", Cell.null]⟩]⟩

/-- The frame of the C6 example: one numeric column `[1,2,3,4,5,1000]`. -/
def dfOutlier : DataFrame :=
  ⟨[⟨"v", Dtype.numeric,
     [Cell.num 1, Cell.num 2, Cell.num 3, Cell.num 4, Cell.num 5, Cell.num 1000]⟩]⟩

/-- The frame of the C9 example: rows (A,1), (A,2), (B,5). -/
def dfPie : DataFrame :=
  ⟨[⟨"cat", Dtype.object, [Cell.str "A", Cell.str "A", Cell.str "B"]⟩,
    ⟨"val", Dtype.numeric, [Cell.num 1, Cell.num 2, Cell.num 5]⟩]⟩

/-- A data_info whose x column is numeric-only (not categorical) — a type
mismatch for PIE. -/
def infoPieBad : DataInfo :=
  { x_axis := some "x", y_axis := ["y"],
    columns := [⟨"x", 0, 0, 3, [], true, false, false⟩,
                ⟨"y", 0, 0, 3, [], true, false, false⟩] }

/-- A data_info with a categorical x column and a numeric y column — fully
compatible with BAR. -/
def infoBarGood : DataInfo :=
  { x_axis := some "c", y_axis := ["y"],
    columns := [⟨"c", 0, 0, 3, [], false, false, true⟩,
                ⟨"y", 0, 0, 3, [], true, false, false⟩] }

/-! # Theorems -/

/-- C1 counterexample: on a categorical x column with 3 ≤ 8 distinct values
and a single numeric y column, `suggest_optimal_chart` returns BAR, not PIE
(the PIE branch of the source is shadowed by the categorical-x BAR branch). -/
theorem suggest_optimal_chart_pie_counterexample :
    (dfCatNum.getCol "cat" = some ⟨"cat", Dtype.object,
        [Cell.str "A", Cell.str "B", Cell.str "C"]⟩) ∧
    nunique [Cell.str "A", Cell.str "B", Cell.str "C"] ≤ 8 ∧
    ysNumericB dfCatNum ["val"] = true ∧
    suggest_optimal_chart dfCatNum "cat" ["val"] = some ChartType.bar ∧
    suggest_optimal_chart dfCatNum "cat" ["val"] ≠ some ChartType.pie := by
  refine ⟨by decide, by decide, by decide, by decide, by decide⟩

/-- C1 amended: temporal x with a single numeric y yields LINE, as claimed;
but a categorical (non-temporal) x with a single numeric y yields BAR — the
PIE case of the claim never happens because the BAR branch fires first. -/
theorem suggest_optimal_chart_amended (df : DataFrame) (x y : String) (cx : Col)
    (hx : df.getCol x = some cx) :
    (xIsDatetimeB cx = true → ysNumericB df [y] = true →
      suggest_optimal_chart df x [y] = some ChartType.line) ∧
    (xIsDatetimeB cx = false → xIsCategoricalB df cx = true →
      ysNumericB df [y] = true →
      suggest_optimal_chart df x [y] = some ChartType.bar) := by
  constructor
  · intro h1 h2
    simp [suggest_optimal_chart, hx, h1, h2]
  · intro h1 h2 h3
    simp [suggest_optimal_chart, hx, h1, h2, h3]

/-- Witness for `suggest_optimal_chart_amended` at the two concrete frames. -/
theorem suggest_optimal_chart_amended_witness :
    suggest_optimal_chart dfTimeNum "d" ["val"] = some ChartType.line ∧
    suggest_optimal_chart dfCatNum "cat" ["val"] = some ChartType.bar := by
  constructor
  · exact (suggest_optimal_chart_amended dfTimeNum "d" "val"
      ⟨"d", Dtype.datetime, [Cell.time 1, Cell.time 2, Cell.time 3]⟩
      (by decide)).1 (by decide) (by decide)
  · exact (suggest_optimal_chart_amended dfCatNum "cat" "val"
      ⟨"cat", Dtype.object, [Cell.str "A", Cell.str "B", Cell.str "C"]⟩
      (by decide)).2 (by decide) (by decide) (by decide)

/-- C4 counterexample: the claim asserts BAR's compatibility row does not
contain LINE, but in the source `BAR` maps to
`[HORIZONTAL_BAR, STACKED_BAR, GROUPED_BAR, LINE]`. -/
theorem compat_bar_contains_line_counterexample :
    ChartType.bar ∈ get_compatible_chart_types ChartType.line ∧
    ChartType.line ∈ get_compatible_chart_types ChartType.bar := by
  decide

/-- C4 amended: the relation is directional, but the asymmetric pair is
PIE/BAR (PIE lists BAR, BAR does not list PIE); LINE and BAR list each
other. -/
theorem compat_directional_amended :
    ChartType.bar ∈ get_compatible_chart_types ChartType.pie ∧
    ChartType.pie ∉ get_compatible_chart_types ChartType.bar ∧
    ChartType.bar ∈ get_compatible_chart_types ChartType.line ∧
    ChartType.line ∈ get_compatible_chart_types ChartType.bar := by
  decide

/-- C5 counterexample: on a 1-row frame whose two columns are both null,
each column reports `null_percentage = 100`, so the sum over columns is
200, outside `[0,100]` (while `row_count` is correct). -/
theorem analyze_schema_sum_counterexample :
    (analyze_schema dfBothNull).row_count = 1 ∧
    ((analyze_schema dfBothNull).columns.map ColumnProfile.null_percentage).sum = 200 ∧
    ¬ ((analyze_schema dfBothNull).columns.map ColumnProfile.null_percentage).sum ≤ 100 := by
  refine ⟨rfl, by with_unfolding_all decide, by with_unfolding_all decide⟩

lemma round2_mem_Icc {x : ℚ} (h0 : 0 ≤ x) (h1 : x ≤ 100) :
    0 ≤ round2 x ∧ round2 x ≤ 100 := by
  rw [round2]
  constructor
  · apply div_nonneg _ (by norm_num)
    have h : (0 : ℤ) ≤ ⌊x * 100 + 1/2⌋ := Int.le_floor.2 (by push_cast; linarith)
    exact_mod_cast h
  · rw [div_le_iff₀ (by norm_num : (0:ℚ) < 100)]
    have h : ⌊x * 100 + 1/2⌋ ≤ 10000 := by
      have hlt : ⌊x * 100 + 1/2⌋ < (10001 : ℤ) := Int.floor_lt.2 (by push_cast; linarith)
      omega
    calc ((⌊x * 100 + 1/2⌋ : ℤ) : ℚ) ≤ ((10000 : ℤ) : ℚ) := by exact_mod_cast h
      _ = 100 * 100 := by norm_num

/-- C5 amended: on every uniform-length frame, `row_count` equals the
number of rows, and each individual column's `null_percentage` lies in
`[0,100]` (the sum over columns can reach `100 × column_count`, as the
counterexample shows). -/
theorem analyze_schema_amended (df : DataFrame)
    (hwf : ∀ c ∈ df.cols, c.values.length = df.nrows) :
    (analyze_schema df).row_count = df.nrows ∧
    ∀ p ∈ (analyze_schema df).columns, 0 ≤ p.null_percentage ∧ p.null_percentage ≤ 100 := by
  refine ⟨rfl, ?_⟩
  intro p hp
  obtain ⟨c, hc, rfl⟩ := List.mem_map.1 hp
  show 0 ≤ (columnProfileOf df c).null_percentage ∧ (columnProfileOf df c).null_percentage ≤ 100
  unfold columnProfileOf
  by_cases hn : 0 < df.nrows
  · simp only [hn, if_true]
    have hle : nullCount c.values ≤ df.nrows := by
      calc nullCount c.values ≤ c.values.length := List.length_filter_le _ _
        _ = df.nrows := hwf c hc
    have hnq : (0 : ℚ) < (df.nrows : ℚ) := by exact_mod_cast hn
    have hx0 : (0 : ℚ) ≤ ((nullCount c.values : ℚ) / (df.nrows : ℚ)) * 100 := by
      have := div_nonneg (by positivity : (0:ℚ) ≤ (nullCount c.values : ℚ)) (le_of_lt hnq)
      linarith
    have hx1 : ((nullCount c.values : ℚ) / (df.nrows : ℚ)) * 100 ≤ 100 := by
      have hdiv : (nullCount c.values : ℚ) / (df.nrows : ℚ) ≤ 1 :=
        (div_le_one hnq).2 (by exact_mod_cast hle)
      linarith
    exact round2_mem_Icc hx0 hx1
  · simp [hn]

/-- Witness for `analyze_schema_amended` at a concrete frame. -/
theorem analyze_schema_amended_witness :
    (analyze_schema dfBothNull).row_count = dfBothNull.nrows ∧
    ∀ p ∈ (analyze_schema dfBothNull).columns,
      0 ≤ p.null_percentage ∧ p.null_percentage ≤ 100 :=
  analyze_schema_amended dfBothNull (by decide)

/-- C2 counterexample: a `fill_nulls` step with method `mean` on a
non-numeric (object) column is not a no-op — the method/type guard falls
through to the literal-fill branch, replacing the null with the default
literal `"Unknown"`. -/
theorem fill_nulls_mean_nonnumeric_counterexample :
    apply_cleaning dfStrNull [⟨"fill_nulls", "s", {method := some "mean"}⟩] =
      (⟨[⟨"s", Dtype.object, [Cell.str "a", Cell.str "Unknown"]⟩]⟩,
       [LogEntry.filledNulls "s" "mean"]) ∧
    (apply_cleaning dfStrNull [⟨"fill_nulls", "s", {method := some "mean"}⟩]).1 ≠ dfStrNull := by
  refine ⟨by decide, by decide⟩

/-- C2 amended: on a present, non-numeric column, `fill_nulls` with method
mean or median falls through to the final `fillna` branch and fills the
nulls with `parameters.value` (default `"Unknown"`), logging one
filled-nulls entry. -/
theorem fill_nulls_mean_nonnumeric_amended (df : DataFrame) (col : String) (c : Col)
    (params : CleanParams)
    (hc : df.getCol col = some c)
    (hdt : c.dtype ≠ Dtype.numeric)
    (hm : params.method.getD "mean" = "mean" ∨ params.method.getD "mean" = "median") :
    apply_cleaning df [⟨"fill_nulls", col, params⟩] =
      (df.updateCol col (fun cc =>
         { cc with values := fillValues (params.value.getD (Cell.str "Unknown")) cc.values }),
       [LogEntry.filledNulls col (params.method.getD "mean")]) := by
  have hdt' : (c.dtype == Dtype.numeric) = false := by
    simp [hdt]
  rcases hm with h | h <;>
    simp [apply_cleaning, pipeLoop, applyCleaningStep, hc, h, hdt']

/-- Witness for `fill_nulls_mean_nonnumeric_amended` at a concrete frame. -/
theorem fill_nulls_mean_nonnumeric_amended_witness :
    apply_cleaning dfStrNull [⟨"fill_nulls", "s", {method := some "median"}⟩] =
      (⟨[⟨"s", Dtype.object, [Cell.str "a", Cell.str "Unknown"]⟩]⟩,
       [LogEntry.filledNulls "s" "median"]) := by
  rw [fill_nulls_mean_nonnumeric_amended dfStrNull "s"
        ⟨"s", Dtype.object, [Cell.str "a", Cell.null]⟩ {method := some "median"}
        (by decide) (by decide) (Or.inr (by decide))]
  decide

/-- C6: a `remove_outliers` step with method `iqr` on a present numeric
column keeps exactly the rows whose value lies in the closed interval
`[Q1 - 1.5*IQR, Q3 + 1.5*IQR]`, where `Q1`/`Q3` are the interpolated
25th/75th percentiles of the column, and logs one entry. -/
theorem remove_outliers_iqr_spec (df : DataFrame) (col : String) (c : Col)
    (params : CleanParams)
    (hc : df.getCol col = some c) (hdt : c.dtype = Dtype.numeric)
    (hm : params.method.getD "iqr" = "iqr") (q1 q3 : ℚ)
    (hq1 : quantile (numericValues c.values) (1/4) = some q1)
    (hq3 : quantile (numericValues c.values) (3/4) = some q3) :
    apply_cleaning df [⟨"remove_outliers", col, params⟩] =
      (df.filterByCol col (fun v => match v with
        | Cell.num q => decide (q1 - 3/2 * (q3 - q1) ≤ q) && decide (q ≤ q3 + 3/2 * (q3 - q1))
        | _ => false),
       [LogEntry.removedOutliers col "IQR"]) := by
  have hdt' : (c.dtype == Dtype.numeric) = true := by simp [hdt]
  simp only [apply_cleaning, pipeLoop, applyCleaningStep, hc, hm, hdt',
    List.append_nil]
  simp only [iqrKeep, hq1, hq3]
  rfl

/-- Witness for `remove_outliers_iqr_spec`: on the column
`[1,2,3,4,5,1000]` (Q1 = 9/4, Q3 = 19/4) the row with 1000 is removed and
the other five are retained. -/
theorem remove_outliers_iqr_spec_witness :
    apply_cleaning dfOutlier [⟨"remove_outliers", "v", {}⟩] =
      (⟨[⟨"v", Dtype.numeric,
          [Cell.num 1, Cell.num 2, Cell.num 3, Cell.num 4, Cell.num 5]⟩]⟩,
       [LogEntry.removedOutliers "v" "IQR"]) := by
  rw [remove_outliers_iqr_spec dfOutlier "v"
        ⟨"v", Dtype.numeric,
         [Cell.num 1, Cell.num 2, Cell.num 3, Cell.num 4, Cell.num 5, Cell.num 1000]⟩
        {} (by decide) (by decide) (by decide) (9/4) (19/4)
        (by with_unfolding_all decide) (by with_unfolding_all decide)]
  with_unfolding_all decide

/-- C3 counterexample: an inapplicable step appends no log entry at all —
`remove_outliers` (method iqr) on a non-numeric column and an unknown
action tag both leave the frame and the log untouched. -/
theorem cleaning_silent_skip_counterexample :
    apply_cleaning dfCatNum [⟨"remove_outliers", "cat", {method := some "iqr"}⟩]
      = (dfCatNum, []) ∧
    apply_cleaning dfCatNum [⟨"unknown_action", "cat", {}⟩] = (dfCatNum, []) := by
  refine ⟨by decide, by decide⟩

lemma applyCleaningStep_log_count (df : DataFrame) (s : CleaningStep) :
    (applyCleaningStep df s).2.length = if stepApplies df s then 1 else 0 := by
  unfold applyCleaningStep stepApplies
  dsimp only
  repeat' (split <;> (try dsimp only))
  all_goals simp_all

lemma applyCleaningStep_log_length (df : DataFrame) (s : CleaningStep) :
    (applyCleaningStep df s).2.length ≤ 1 := by
  rw [applyCleaningStep_log_count]
  split <;> simp

lemma pipeLoop_log_le {σ : Type} (stepF : DataFrame → σ → DataFrame × List LogEntry)
    (h : ∀ df s, (stepF df s).2.length ≤ 1) :
    ∀ (steps : List σ) (df : DataFrame),
      (pipeLoop stepF df steps).2.length ≤ steps.length
  | [], df => by simp [pipeLoop]
  | s :: rest, df => by
    simp only [pipeLoop, List.length_append, List.length_cons]
    have h1 := h df s
    have h2 := pipeLoop_log_le stepF h rest (stepF df s).1
    omega

/-- C3 amended: every cleaning step appends exactly one log entry when it
executes or errors (`stepApplies`, transcribed from the source's branch
guards) and exactly zero when it is silently skipped; the loop log is
precisely the concatenation of those per-step logs (so it has at most one
entry per step); a step that raises (here: a missing column) is caught,
logged as an error, and the run continues on the remaining steps; and the
final `process_data` log line always reports the resulting row/column
counts. -/
theorem apply_cleaning_log_amended (df : DataFrame) (steps : List CleaningStep)
    (s : CleaningStep) (rec : Recommendation) (col : String) (params : CleanParams)
    (hmiss : df.getCol col = none) :
    (applyCleaningStep df s).2.length = (if stepApplies df s then 1 else 0) ∧
    apply_cleaning df (s :: steps) =
      ((apply_cleaning (applyCleaningStep df s).1 steps).1,
       (applyCleaningStep df s).2 ++ (apply_cleaning (applyCleaningStep df s).1 steps).2) ∧
    (apply_cleaning df steps).2.length ≤ steps.length ∧
    (process_data df rec).2.getLast? =
      some (LogEntry.finalShape (process_data df rec).1.nrows (process_data df rec).1.ncols) ∧
    apply_cleaning df (⟨"fill_nulls", col, params⟩ :: steps) =
      ((apply_cleaning df steps).1,
       LogEntry.stepError "fill_nulls" col :: (apply_cleaning df steps).2) := by
  refine ⟨applyCleaningStep_log_count df s, rfl,
    pipeLoop_log_le _ applyCleaningStep_log_length steps df, ?_, ?_⟩
  · show (process_data df rec).2.getLast? = _
    simp only [process_data]
    rw [List.getLast?_concat]
  · simp [apply_cleaning, pipeLoop, applyCleaningStep, hmiss]

/-- Witness for `apply_cleaning_log_amended` at concrete inputs (the extra
step is an inapplicable one, logging zero entries). -/
theorem apply_cleaning_log_amended_witness :
    (applyCleaningStep dfCatNum ⟨"remove_outliers", "cat", {method := some "iqr"}⟩).2.length =
      (if stepApplies dfCatNum ⟨"remove_outliers", "cat", {method := some "iqr"}⟩
       then 1 else 0) ∧
    apply_cleaning dfCatNum
        (⟨"remove_outliers", "cat", {method := some "iqr"}⟩ :: [⟨"unknown_action", "cat", {}⟩]) =
      ((apply_cleaning
          (applyCleaningStep dfCatNum ⟨"remove_outliers", "cat", {method := some "iqr"}⟩).1
          [⟨"unknown_action", "cat", {}⟩]).1,
       (applyCleaningStep dfCatNum ⟨"remove_outliers", "cat", {method := some "iqr"}⟩).2 ++
        (apply_cleaning
          (applyCleaningStep dfCatNum ⟨"remove_outliers", "cat", {method := some "iqr"}⟩).1
          [⟨"unknown_action", "cat", {}⟩]).2) ∧
    (apply_cleaning dfCatNum [⟨"unknown_action", "cat", {}⟩]).2.length ≤ 1 ∧
    (process_data dfCatNum {}).2.getLast? =
      some (LogEntry.finalShape (process_data dfCatNum {}).1.nrows
        (process_data dfCatNum {}).1.ncols) ∧
    apply_cleaning dfCatNum
        (⟨"fill_nulls", "zzz", {}⟩ :: [⟨"unknown_action", "cat", {}⟩]) =
      ((apply_cleaning dfCatNum [⟨"unknown_action", "cat", {}⟩]).1,
       LogEntry.stepError "fill_nulls" "zzz"
         :: (apply_cleaning dfCatNum [⟨"unknown_action", "cat", {}⟩]).2) :=
  apply_cleaning_log_amended dfCatNum [⟨"unknown_action", "cat", {}⟩]
    ⟨"remove_outliers", "cat", {method := some "iqr"}⟩ {} "zzz" {} (by decide)

/-- C7: the validation verdict joins all issues with "; " into the reason;
with at least one issue it is incompatible and suggests the first 3
compatibility-row entries; with no issues it is compatible with the same
truncated suggestions; and `get_compatible_chart_types` returns the full
untruncated row. -/
theorem validate_chart_compatibility_spec (ct : ChartType) (info : DataInfo) :
    (validationIssues ct info ≠ [] →
      validate_chart_compatibility ct info =
        { is_compatible := false
          reason := String.intercalate "; " (validationIssues ct info)
          suggested_alternatives := (compatibility_matrix ct).take 3 }) ∧
    (validationIssues ct info = [] →
      (validate_chart_compatibility ct info).is_compatible = true ∧
      (validate_chart_compatibility ct info).suggested_alternatives =
        (compatibility_matrix ct).take 3) ∧
    get_compatible_chart_types ct = compatibility_matrix ct := by
  refine ⟨?_, ?_, rfl⟩
  · intro h
    simp [validate_chart_compatibility, h]
  · intro h
    simp [validate_chart_compatibility, h]

/-- Witness for `validate_chart_compatibility_spec`: PIE on a numeric-only
x column is incompatible with the joined reason and 2-entry suggestion
row; BAR on a categorical x and numeric y is compatible. -/
theorem validate_chart_compatibility_spec_witness :
    validate_chart_compatibility ChartType.pie infoPieBad =
      { is_compatible := false
        reason := String.intercalate "; " (validationIssues ChartType.pie infoPieBad)
        suggested_alternatives := (compatibility_matrix ChartType.pie).take 3 } ∧
    (validate_chart_compatibility ChartType.bar infoBarGood).is_compatible = true := by
  constructor
  · exact (validate_chart_compatibility_spec ChartType.pie infoPieBad).1 (by decide)
  · exact ((validate_chart_compatibility_spec ChartType.bar infoBarGood).2.1 (by decide)).1

lemma insertCellBy_perm (le : Cell → Cell → Bool) (x : Cell) (l : List Cell) :
    (insertCellBy le x l).Perm (x :: l) := by
  induction l with
  | nil => exact List.Perm.refl _
  | cons y ys ih =>
    simp only [insertCellBy]
    split
    · exact List.Perm.refl _
    · exact List.Perm.trans (List.Perm.cons y ih) (List.Perm.swap x y ys)

lemma sortCells_perm (xs : List Cell) : (sortCells xs).Perm xs := by
  induction xs with
  | nil => exact List.Perm.refl _
  | cons x xs ih =>
    simp only [sortCells, List.foldr_cons]
    exact List.Perm.trans (insertCellBy_perm Cell.le x _) (List.Perm.cons x ih)

lemma groupKeys_nodup (xs : List Cell) : (groupKeys xs).Nodup :=
  ((sortCells_perm _).symm.nodup_iff).1 (List.nodup_dedup _)

lemma groupKeys_mem (xs : List Cell) (k : Cell) :
    k ∈ groupKeys xs ↔ k ∈ xs ∧ k.isNull = false := by
  unfold groupKeys
  rw [(sortCells_perm _).mem_iff, List.mem_dedup, List.mem_filter]
  simp

/-- C9: pie and donut preparation groups by the x column, sums the first y
column per group, and emits exactly one record per distinct (non-null)
group key, of the form `{x_axis: key, y_name: sum}`. -/
theorem prepare_pie_groups (df : DataFrame) (ct : ChartType) (x y0 : String)
    (ys : List String) (cx cy : Col)
    (hct : ct = ChartType.pie ∨ ct = ChartType.donut)
    (hx : df.getCol x = some cx) (hy : df.getCol y0 = some cy) :
    prepare_chart_data df ct x (y0 :: ys) none =
      some (ChartData.records ((groupSum cx.values cy.values).map
        (fun p => [(x, p.1), (y0, Cell.num p.2)]))) ∧
    ((groupSum cx.values cy.values).map Prod.fst).Nodup ∧
    (∀ k, k ∈ (groupSum cx.values cy.values).map Prod.fst ↔
        k ∈ cx.values ∧ k.isNull = false) := by
  refine ⟨?_, ?_, ?_⟩
  · rcases hct with h | h <;> subst h <;>
      simp [prepare_chart_data, applyChartFilters, hx, hy]
  · have hkeys : (groupSum cx.values cy.values).map Prod.fst = groupKeys cx.values := by
      simp [groupSum, Function.comp_def]
    rw [hkeys]
    exact groupKeys_nodup _
  · intro k
    have hkeys : (groupSum cx.values cy.values).map Prod.fst = groupKeys cx.values := by
      simp [groupSum, Function.comp_def]
    rw [hkeys]
    exact groupKeys_mem _ k

/-- Witness for `prepare_pie_groups`: on rows (A,1), (A,2), (B,5) with
`y_axis=["val"]`, both pie and donut yield
`[{cat: A, val: 3}, {cat: B, val: 5}]`. -/
theorem prepare_pie_groups_witness :
    prepare_chart_data dfPie ChartType.pie "cat" ["val"] none =
      some (ChartData.records
        [[("cat", Cell.str "A"), ("val", Cell.num 3)],
         [("cat", Cell.str "B"), ("val", Cell.num 5)]]) ∧
    prepare_chart_data dfPie ChartType.donut "cat" ["val"] none =
      some (ChartData.records
        [[("cat", Cell.str "A"), ("val", Cell.num 3)],
         [("cat", Cell.str "B"), ("val", Cell.num 5)]]) := by
  constructor
  · rw [(prepare_pie_groups dfPie ChartType.pie "cat" "val" []
        ⟨"cat", Dtype.object, [Cell.str "A", Cell.str "A", Cell.str "B"]⟩
        ⟨"val", Dtype.numeric, [Cell.num 1, Cell.num 2, Cell.num 5]⟩
        (Or.inl rfl) (by decide) (by decide)).1]
    with_unfolding_all decide
  · rw [(prepare_pie_groups dfPie ChartType.donut "cat" "val" []
        ⟨"cat", Dtype.object, [Cell.str "A", Cell.str "A", Cell.str "B"]⟩
        ⟨"val", Dtype.numeric, [Cell.num 1, Cell.num 2, Cell.num 5]⟩
        (Or.inr rfl) (by decide) (by decide)).1]
    with_unfolding_all decide

/-- C10: pie/donut with an empty y_axis list, and heatmap with fewer than
2 y columns, neither raise nor aggregate: both fall through to the default
path and return the plain row-projection of the existing
`[x_axis] + y_axes` columns. -/
theorem prepare_fallthrough (df : DataFrame) (x : String) (ys : List String) (ct : ChartType)
    (hct : ct = ChartType.pie ∨ ct = ChartType.donut) :
    prepare_chart_data df ct x [] none =
      some (ChartData.records (projectRecords df ([x].filter (df.hasCol ·)))) ∧
    (ys.length < 2 →
      prepare_chart_data df ChartType.heatmap x ys none =
        some (ChartData.records (projectRecords df (([x] ++ ys).filter (df.hasCol ·))))) := by
  constructor
  · rcases hct with h | h <;> subst h <;> simp [prepare_chart_data, applyChartFilters]
  · intro hlen
    have h2 : ¬ 2 ≤ ys.length := by omega
    simp [prepare_chart_data, applyChartFilters, h2]

/-- Witness for `prepare_fallthrough` at a concrete frame. -/
theorem prepare_fallthrough_witness :
    prepare_chart_data dfPie ChartType.pie "cat" [] none =
      some (ChartData.records (projectRecords dfPie (["cat"].filter (dfPie.hasCol ·)))) ∧
    prepare_chart_data dfPie ChartType.heatmap "cat" ["val"] none =
      some (ChartData.records
        (projectRecords dfPie ((["cat"] ++ ["val"]).filter (dfPie.hasCol ·)))) :=
  ⟨(prepare_fallthrough dfPie "cat" ["val"] ChartType.pie (Or.inl rfl)).1,
   (prepare_fallthrough dfPie "cat" ["val"] ChartType.pie (Or.inl rfl)).2 (by decide)⟩

lemma read_append_self (st : Store) (d : DataFrame) :
    Store.read (st ++ [d]) st.length = d := by
  rw [Store.read, List.getD_append_right _ _ _ _ le_rfl]
  simp

lemma read_append_lt (st : Store) (d : DataFrame) (i : Nat) (h : i < st.length) :
    Store.read (st ++ [d]) i = st.read i := by
  rw [Store.read, Store.read, List.getD_append _ _ _ _ h]

lemma read_set_self (st : Store) (r : Ref) (d : DataFrame) (h : r < st.length) :
    Store.read (st.set r d) r = d := by
  induction st generalizing r with
  | nil => simp at h
  | cons x xs ih =>
    cases r with
    | zero => rfl
    | succ n => simpa [Store.read] using ih n (by simpa using h)

lemma read_set_ne (st : Store) (r : Ref) (d : DataFrame) (i : Nat) (h : i ≠ r) :
    Store.read (st.set r d) i = st.read i := by
  induction st generalizing r i with
  | nil => rfl
  | cons x xs ih =>
    cases r with
    | zero =>
      cases i with
      | zero => exact absurd rfl h
      | succ n => rfl
    | succ m =>
      cases i with
      | zero => rfl
      | succ n => simpa [Store.read] using ih m n (by omega)

lemma pipeLoopS_ok {σ : Type} (stepF : DataFrame → σ → DataFrame × List LogEntry)
    (rebinds : DataFrame → σ → Bool) (steps : List σ) :
    ∀ (st : Store) (r : Ref), r < st.length →
      (pipeLoopS stepF rebinds st r steps).2 = (pipeLoop stepF (st.read r) steps).2 ∧
      (pipeLoopS stepF rebinds st r steps).1.2 <
        (pipeLoopS stepF rebinds st r steps).1.1.length ∧
      st.length ≤ (pipeLoopS stepF rebinds st r steps).1.1.length ∧
      (pipeLoopS stepF rebinds st r steps).1.1.read
          (pipeLoopS stepF rebinds st r steps).1.2 =
        (pipeLoop stepF (st.read r) steps).1 ∧
      ∀ i, i < st.length → i ≠ r →
        (pipeLoopS stepF rebinds st r steps).1.1.read i = st.read i := by
  induction steps with
  | nil =>
    intro st r hr
    exact ⟨rfl, hr, le_rfl, rfl, fun i _ _ => rfl⟩
  | cons s rest ih =>
    intro st r hr
    by_cases hb : rebinds (st.read r) s
    · have hfresh : st.length < (st ++ [(stepF (st.read r) s).1]).length := by simp
      obtain ⟨l1, l2, l3, l4, l5⟩ := ih (st ++ [(stepF (st.read r) s).1]) st.length hfresh
      rw [read_append_self] at l1 l4
      simp only [pipeLoopS, pipeLoop, hb, if_true]
      refine ⟨by rw [l1], l2, ?_, l4, ?_⟩
      · exact le_trans (by simp) l3
      · intro i hi hir
        rw [l5 i (by simp; omega) (by omega), read_append_lt _ _ _ hi]
    · have hlen : r < (st.set r (stepF (st.read r) s).1).length := by simpa using hr
      obtain ⟨l1, l2, l3, l4, l5⟩ := ih (st.set r (stepF (st.read r) s).1) r hlen
      rw [read_set_self _ _ _ hr] at l1 l4
      simp only [pipeLoopS, pipeLoop, hb, Bool.false_eq_true, if_false]
      refine ⟨by rw [l1], l2, by simpa using l3, l4, ?_⟩
      intro i hi hir
      rw [l5 i (by simpa using hi) hir, read_set_ne _ _ _ _ hir]

lemma copyLoopS_ok {σ : Type} (stepF : DataFrame → σ → DataFrame × List LogEntry)
    (rebinds : DataFrame → σ → Bool) (steps : List σ) (st : Store) (r : Ref)
    (hr : r < st.length) :
    (copyLoopS stepF rebinds st r steps).2 = (pipeLoop stepF (st.read r) steps).2 ∧
    (copyLoopS stepF rebinds st r steps).1.2 <
      (copyLoopS stepF rebinds st r steps).1.1.length ∧
    st.length ≤ (copyLoopS stepF rebinds st r steps).1.1.length ∧
    (copyLoopS stepF rebinds st r steps).1.1.read
        (copyLoopS stepF rebinds st r steps).1.2 =
      (pipeLoop stepF (st.read r) steps).1 ∧
    ∀ i, i < st.length → (copyLoopS stepF rebinds st r steps).1.1.read i = st.read i := by
  unfold copyLoopS
  have hfresh : st.length < (st ++ [st.read r]).length := by simp
  obtain ⟨l1, l2, l3, l4, l5⟩ := pipeLoopS_ok stepF rebinds steps (st ++ [st.read r])
    st.length hfresh
  rw [read_append_self] at l1 l4
  refine ⟨l1, l2, le_trans (by simp) l3, l4, ?_⟩
  intro i hi
  rw [l5 i (by simp; omega) (by omega), read_append_lt _ _ _ hi]

lemma dropStage_ok (cols : List String) :
    StageOk (fun st r => dropStageS st r cols) (fun d => dropStage d cols) := by
  intro st r hr
  by_cases h : cols.isEmpty
  · simp [dropStageS, dropStage, h, hr]
  · simp only [dropStageS, dropStage, h, if_false]
    exact ⟨rfl, by simp, by simp, read_append_self _ _,
      fun i hi => read_append_lt _ _ _ hi⟩

lemma cleanStage_ok (steps : List CleaningStep) :
    StageOk (fun st r => cleanStageS st r steps) (fun d => cleanStage d steps) := by
  intro st r hr
  by_cases h : steps.isEmpty
  · simp [cleanStageS, cleanStage, h, hr]
  · simp only [cleanStageS, cleanStage, h, if_false, applyCleaningS, apply_cleaning]
    exact copyLoopS_ok _ _ steps st r hr

lemma featStage_ok (features : List FeatureSpec) :
    StageOk (fun st r => featStageS st r features) (fun d => featStage d features) := by
  intro st r hr
  by_cases h : features.isEmpty
  · simp [featStageS, featStage, h, hr]
  · simp only [featStageS, featStage, h, if_false, applyFeaturesS, apply_feature_engineering]
    exact copyLoopS_ok _ _ features st r hr

lemma filterStage_ok (criteria : List String) :
    StageOk (fun st r => filterStageS st r criteria) (fun d => filterStage d criteria) := by
  intro st r hr
  by_cases h : criteria.isEmpty
  · simp [filterStageS, filterStage, h, hr]
  · simp only [filterStageS, filterStage, h, if_false, applyFilteringS, apply_filtering]
    exact copyLoopS_ok _ _ criteria st r hr

/-- C8: replayed over the explicit heap, `process_data` leaves the
caller's input object unchanged — no stage writes the slot the input
reference points to (drop allocates, each helper copies first and touches
only objects it created) — and the heap run refines the pure run: the
result slot holds `process_data`'s value and the logs agree. -/
theorem process_data_no_mutation (st : Store) (r : Ref) (rec : Recommendation)
    (hr : r < st.length) :
    (process_dataS st r rec).1.1.read r = st.read r ∧
    (process_dataS st r rec).1.1.read (process_dataS st r rec).1.2 =
      (process_data (st.read r) rec).1 ∧
    (process_dataS st r rec).2 = (process_data (st.read r) rec).2 := by
  obtain ⟨a1, b1, c1, d1, e1⟩ := dropStage_ok rec.columns_to_drop st r hr
  obtain ⟨a2, b2, c2, d2, e2⟩ := cleanStage_ok rec.cleaning_steps
    (dropStageS st r rec.columns_to_drop).1.1 (dropStageS st r rec.columns_to_drop).1.2 b1
  obtain ⟨a3, b3, c3, d3, e3⟩ := featStage_ok rec.feature_engineering
    (cleanStageS (dropStageS st r rec.columns_to_drop).1.1
      (dropStageS st r rec.columns_to_drop).1.2 rec.cleaning_steps).1.1
    (cleanStageS (dropStageS st r rec.columns_to_drop).1.1
      (dropStageS st r rec.columns_to_drop).1.2 rec.cleaning_steps).1.2 b2
  obtain ⟨a4, b4, c4, d4, e4⟩ := filterStage_ok rec.filtering_criteria
    (featStageS (cleanStageS (dropStageS st r rec.columns_to_drop).1.1
        (dropStageS st r rec.columns_to_drop).1.2 rec.cleaning_steps).1.1
      (cleanStageS (dropStageS st r rec.columns_to_drop).1.1
        (dropStageS st r rec.columns_to_drop).1.2 rec.cleaning_steps).1.2
      rec.feature_engineering).1.1
    (featStageS (cleanStageS (dropStageS st r rec.columns_to_drop).1.1
        (dropStageS st r rec.columns_to_drop).1.2 rec.cleaning_steps).1.1
      (cleanStageS (dropStageS st r rec.columns_to_drop).1.1
        (dropStageS st r rec.columns_to_drop).1.2 rec.cleaning_steps).1.2
      rec.feature_engineering).1.2 b3
  rw [d1] at a2 d2
  rw [d2] at a3 d3
  rw [d3] at a4 d4
  have hr1 : r < (dropStageS st r rec.columns_to_drop).1.1.length :=
    lt_of_lt_of_le hr c1
  have hr2 : r < (cleanStageS (dropStageS st r rec.columns_to_drop).1.1
      (dropStageS st r rec.columns_to_drop).1.2 rec.cleaning_steps).1.1.length :=
    lt_of_lt_of_le hr1 c2
  have hr3 : r < (featStageS (cleanStageS (dropStageS st r rec.columns_to_drop).1.1
        (dropStageS st r rec.columns_to_drop).1.2 rec.cleaning_steps).1.1
      (cleanStageS (dropStageS st r rec.columns_to_drop).1.1
        (dropStageS st r rec.columns_to_drop).1.2 rec.cleaning_steps).1.2
      rec.feature_engineering).1.1.length :=
    lt_of_lt_of_le hr2 c3
  refine ⟨?_, ?_, ?_⟩
  · show (filterStageS _ _ rec.filtering_criteria).1.1.read r = st.read r
    rw [e4 r hr3, e3 r hr2, e2 r hr1, e1 r hr]
  · show (filterStageS _ _ rec.filtering_criteria).1.1.read
        (filterStageS _ _ rec.filtering_criteria).1.2 = _
    exact d4
  · show (dropStageS st r rec.columns_to_drop).2 ++ _ ++ _ ++ _ ++
        [LogEntry.finalShape _ _] = _
    rw [a1, a2, a3, a4, d4]
    simp [process_data]

/-- Witness for `process_data_no_mutation` at a one-object heap and a
recommendation with one cleaning step. -/
theorem process_data_no_mutation_witness :
    (process_dataS [dfStrNull] 0
        { cleaning_steps := [⟨"fill_nulls", "s", {method := some "mean"}⟩] }).1.1.read 0 =
      Store.read [dfStrNull] 0 ∧
    (process_dataS [dfStrNull] 0
        { cleaning_steps := [⟨"fill_nulls", "s", {method := some "mean"}⟩] }).1.1.read
      (process_dataS [dfStrNull] 0
        { cleaning_steps := [⟨"fill_nulls", "s", {method := some "mean"}⟩] }).1.2 =
      (process_data (Store.read [dfStrNull] 0)
        { cleaning_steps := [⟨"fill_nulls", "s", {method := some "mean"}⟩] }).1 ∧
    (process_dataS [dfStrNull] 0
        { cleaning_steps := [⟨"fill_nulls", "s", {method := some "mean"}⟩] }).2 =
      (process_data (Store.read [dfStrNull] 0)
        { cleaning_steps := [⟨"fill_nulls", "s", {method := some "mean"}⟩] }).2 :=
  process_data_no_mutation [dfStrNull] 0
    { cleaning_steps := [⟨"fill_nulls", "s", {method := some "mean"}⟩] } (by decide)
